import Mathlib

/-!
Shallow embedding of the credential lifecycle & token issuance subsystem of
the BAS portal backend (Go, gofiber + golang-jwt/v5 + gorm).

Conventions of the embedding:
* Go `string` is Lean `String`; where character-level reasoning is needed the
  characters are handled through `String.data`.
* `uuid.UUID` values are carried as their canonical 36-character string form;
  `uuid.Parse` is modelled by `isUUID`, accepting the canonical hyphenated
  form (the form `uuid.UUID.String()` produces).
* JWT tokens are modelled structurally (header algorithm + claim map +
  signature evidence) instead of as compact serialized strings; the
  golang-jwt/v5 library behaviour with a `[]byte` key is captured by
  `libParse`: an unregistered algorithm fails, a keyfunc that rejects
  non-HMAC methods fails, a non-HMAC registered method fails on the
  `[]byte` key type, an HMAC signature is checked against the key, and the
  `exp` claim is validated against the current time.
* gorm-backed repositories are modelled as pure functions over a list of
  records; gorm's default soft-delete scope (rows with `deleted_at` set are
  invisible) is applied exactly where gorm applies it.
* `crypto/rand.Read` is modelled per call by an `Option (Nat → Nat)`:
  `none` is an entropy-source failure, `some f` yields the byte stream
  `f 0 % 256, f 1 % 256, …` for that call.
-/

namespace BAS

/-- JSON claim values as stored in `jwt.MapClaims`. -/
inductive JValue where
  | str (s : String)
  | num (n : Int)
  | boolean (b : Bool)
  | null
deriving DecidableEq, Repr

/-- A claim map (`jwt.MapClaims`), as an association list. -/
abbrev Claims := List (String × JValue)

/-- Lookup of a claim by name. -/
def getClaim (cs : Claims) (k : String) : Option JValue :=
  (cs.find? (fun p => p.1 == k)).map (fun p => p.2)

/-- Go type assertion `claims[k].(string)`: the claim must exist and be a string. -/
def getStrClaim (cs : Claims) (k : String) : Option String :=
  match getClaim cs k with
  | some (JValue.str s) => some s
  | _ => none

/-- Go `claims[k]` numeric read used for `exp`. -/
def getNumClaim (cs : Claims) (k : String) : Option Int :=
  match getClaim cs k with
  | some (JValue.num n) => some n
  | _ => none

/-- JOSE signing algorithms as declared in a token header.  `other` covers
algorithm names not registered with the golang-jwt library. -/
inductive Alg where
  | HS256 | HS384 | HS512
  | RS256 | RS384 | RS512
  | PS256 | PS384 | PS512
  | ES256 | ES384 | ES512
  | EdDSA
  | noneAlg
  | other (name : String)
deriving DecidableEq, Repr

/-- Is the algorithm in the HMAC family (`*jwt.SigningMethodHMAC`)? -/
def Alg.isHMAC : Alg → Bool
  | Alg.HS256 => true
  | Alg.HS384 => true
  | Alg.HS512 => true
  | _ => false

/-- Is the algorithm name registered with the golang-jwt library
(`jwt.GetSigningMethod` succeeds)? -/
def Alg.isRegistered : Alg → Bool
  | Alg.other _ => false
  | _ => true

/-- Evidence of how a token was signed: an HMAC tag produced with a given
algorithm and key over a given claim payload, or any other signature bytes. -/
inductive Sig where
  | hmac (a : Alg) (key : String) (payload : Claims)
  | raw (bytes : String)
deriving DecidableEq, Repr

/-- A decoded JWT: declared header algorithm, claim map, signature. -/
structure Token where
  alg : Alg
  claims : Claims
  sig : Sig
deriving DecidableEq, Repr

/-- HMAC signature check with a shared `[]byte` secret: the tag must have been
produced with the token's declared algorithm, the same key, and the same
payload. -/
def sigVerify (t : Token) (secret : String) : Bool :=
  match t.sig with
  | Sig.hmac a k p => a == t.alg && k == secret && p == t.claims
  | Sig.raw _ => false

/-- Failure modes of `jwt.Parse` (golang-jwt/v5) with a `[]byte` key. -/
inductive ParseErr where
  /-- `jwt.GetSigningMethod` finds no method for the declared `alg`. -/
  | algUnavailable
  /-- the caller's keyfunc returned an error (JWTAuth rejects non-HMAC there) -/
  | keyfuncError
  /-- a registered non-HMAC method cannot use a `[]byte` key
  (`jwt.ErrInvalidKeyType` for RSA/ECDSA/EdDSA,
  `NoneSignatureTypeDisallowedError` for `none`) -/
  | invalidKeyType
  /-- the signature does not verify under the shared secret -/
  | sigInvalid
  /-- the `exp` claim is present but not numeric -/
  | expMalformed
  /-- the token is expired -/
  | expired
deriving DecidableEq, Repr

/-- `jwt.Parse tokenString keyfunc` with a `[]byte(secret)` key, followed by
`token.Valid`.  `requireHMAC` records whether the keyfunc itself rejects
non-HMAC signing methods (`JWTAuth` does, `AuthService.RefreshToken` does
not); either way a registered non-HMAC method subsequently fails because the
`[]byte` key has the wrong type for it. -/
def libParse (requireHMAC : Bool) (secret : String) (now : Int) (t : Token) :
    Except ParseErr Claims :=
  if ¬ t.alg.isRegistered then Except.error ParseErr.algUnavailable
  else if requireHMAC ∧ ¬ t.alg.isHMAC then Except.error ParseErr.keyfuncError
  else if ¬ t.alg.isHMAC then Except.error ParseErr.invalidKeyType
  else if ¬ sigVerify t secret then Except.error ParseErr.sigInvalid
  else
    match getClaim t.claims "exp" with
    | some (JValue.num e) =>
        if e < now then Except.error ParseErr.expired else Except.ok t.claims
    | some _ => Except.error ParseErr.expMalformed
    | none => Except.ok t.claims

/-- Is the character an ASCII hexadecimal digit? -/
def isHexDigit (c : Char) : Bool :=
  ('0' ≤ c && c ≤ '9') || ('a' ≤ c && c ≤ 'f') || ('A' ≤ c && c ≤ 'F')

/-- `uuid.Parse` on the canonical hyphenated 36-character form
(`xxxxxxxx-xxxx-xxxx-xxxx-xxxxxxxxxxxx`). -/
def isUUID (s : String) : Bool :=
  s.data.length == 36 &&
  (List.range 36).all fun i =>
    if i == 8 || i == 13 || i == 18 || i == 23 then s.data.getD i ' ' == '-'
    else isHexDigit (s.data.getD i ' ')

/-- `strings.Split` on a single-space separator, on the character level:
every space starts a new field, adjacent separators yield empty fields, the
empty string yields one empty field. -/
def splitSpaceAux : List Char → List Char → List (List Char)
  | [], acc => [acc.reverse]
  | c :: rest, acc =>
    if c = ' ' then acc.reverse :: splitSpaceAux rest []
    else splitSpaceAux rest (c :: acc)

/-- Go `strings.Split(s, " ")`. -/
def stringsSplit (s : String) : List String :=
  (splitSpaceAux s.data []).map fun cs => ⟨cs⟩

/-- Go `strings.ToLower` (ASCII range, which covers the scheme keyword
comparison). -/
def toLowerStr (s : String) : String :=
  ⟨s.data.map Char.toLower⟩

/-- The JSON error body a fiber handler returns on failure:
`c.Status(status).JSON(fiber.Map{"error": err, "message": message})`. -/
structure ErrResp where
  status : Nat
  error : String
  message : String
deriving DecidableEq, Repr

/-- What the middleware stores on success: `c.Locals("userID", …)` and
`c.Locals("email", …)` before `c.Next()`. -/
structure AuthedCtx where
  userID : String
  email : Option JValue
deriving DecidableEq, Repr

/-- The token-checking tail of `middleware.JWTAuth` (from `jwt.Parse` on):
signature/expiry verification with an HMAC-only keyfunc, the `type = "access"`
check, the `sub` string assertion, and `uuid.Parse` of the subject. -/
def jwtAuthCheckToken (secret : String) (now : Int) (t : Token) :
    Except ErrResp AuthedCtx :=
  match libParse true secret now t with
  | Except.error _ =>
      Except.error ⟨401, "Unauthorized", "Invalid or expired token"⟩
  | Except.ok claims =>
    match getStrClaim claims "type" with
    | some "access" =>
      match getStrClaim claims "sub" with
      | none => Except.error ⟨401, "Unauthorized", "Invalid user ID in token"⟩
      | some userIDStr =>
        if isUUID userIDStr then
          Except.ok ⟨userIDStr, getClaim claims "email"⟩
        else
          Except.error ⟨401, "Unauthorized", "Invalid user ID format"⟩
    | _ => Except.error ⟨401, "Unauthorized", "Invalid token type"⟩

/-- `middleware.JWTAuth`, whole handler: `c.Get("Authorization")` yields `""`
when the header is absent; the header is split on single spaces
(`strings.Split`), must have exactly two parts with a case-insensitive
`bearer` scheme; `decode` stands for compact-JWS decoding of the token text
(`none` = malformed string, which surfaces as a parse error). -/
def JWTAuth (secret : String) (now : Int) (authHeader : String)
    (decode : String → Option Token) : Except ErrResp AuthedCtx :=
  if authHeader = "" then
    Except.error ⟨401, "Unauthorized", "Missing authorization header"⟩
  else
    match stringsSplit authHeader with
    | [p0, p1] =>
      if toLowerStr p0 ≠ "bearer" then
        Except.error ⟨401, "Unauthorized", "Invalid authorization header format"⟩
      else
        match decode p1 with
        | none => Except.error ⟨401, "Unauthorized", "Invalid or expired token"⟩
        | some t => jwtAuthCheckToken secret now t
    | _ => Except.error ⟨401, "Unauthorized", "Invalid authorization header format"⟩

/-- `models.User`, restricted to the fields the token subsystem reads. -/
structure User where
  id : String
  email : String
deriving DecidableEq, Repr

/-- The token pair minted by `AuthService.generateAuthResponse`. -/
structure AuthResponse where
  accessToken : Token
  refreshToken : Token
  expiresIn : Int
  user : User
deriving DecidableEq, Repr

/-- `AuthService.generateAuthResponse`: mints an HS256 access token
(`type = "access"`, expiry `now + hours·3600`, with the email claim) and an
HS256 refresh token (`type = "refresh"`, expiry `now + 7·hours·3600`), both
signed with the shared secret. -/
def generateAuthResponse (secret : String) (expiryHours : Int) (now : Int)
    (user : User) : AuthResponse :=
  let accessClaims : Claims :=
    [("sub", JValue.str user.id), ("email", JValue.str user.email),
     ("type", JValue.str "access"), ("exp", JValue.num (now + expiryHours * 3600)),
     ("iat", JValue.num now)]
  let refreshClaims : Claims :=
    [("sub", JValue.str user.id), ("type", JValue.str "refresh"),
     ("exp", JValue.num (now + expiryHours * 7 * 3600)), ("iat", JValue.num now)]
  { accessToken := ⟨Alg.HS256, accessClaims, Sig.hmac Alg.HS256 secret accessClaims⟩
    refreshToken := ⟨Alg.HS256, refreshClaims, Sig.hmac Alg.HS256 secret refreshClaims⟩
    expiresIn := expiryHours * 3600
    user := user }

/-- `AuthService.RefreshToken`, applied to an already-decoded token: parse
with a keyfunc that returns the shared secret without a signing-method check,
require `type = "refresh"`, parse the subject, resolve the user
(`findUser` models `userRepo.FindByID`), and mint a fresh pair. -/
def RefreshToken (secret : String) (expiryHours : Int) (now : Int)
    (findUser : String → Option User) (t : Token) :
    Except String AuthResponse :=
  match libParse false secret now t with
  | Except.error _ => Except.error "invalid refresh token"
  | Except.ok claims =>
    match getStrClaim claims "type" with
    | some "refresh" =>
      match getStrClaim claims "sub" with
      | none => Except.error "invalid user ID in token"
      | some userIDStr =>
        if isUUID userIDStr then
          match findUser userIDStr with
          | none => Except.error "user not found"
          | some user => Except.ok (generateAuthResponse secret expiryHours now user)
        else Except.error "invalid user ID format"
    | _ => Except.error "invalid token type"

/-! ### Secret generator (`crypto/rand` + `encoding/hex`) -/

/-- Lowercase hex digit for a value below 16. -/
def hexDigitChar (n : Nat) : Char :=
  if n < 10 then Char.ofNat (48 + n) else Char.ofNat (97 + (n - 10))

/-- `encoding/hex` of one byte: two lowercase hex digits. -/
def hexEncodeByte (b : Nat) : List Char :=
  [hexDigitChar (b / 16 % 16), hexDigitChar (b % 16)]

/-- `hex.EncodeToString` over a byte list. -/
def hexEncode (bs : List Nat) : List Char :=
  (bs.map hexEncodeByte).flatten

/-- One `crypto/rand.Read` call filling `n` bytes: `none` models an
entropy-source failure, `some f` yields bytes `f 0 % 256, …, f (n-1) % 256`. -/
def randRead (src : Option (Nat → Nat)) (n : Nat) : Option (List Nat) :=
  src.map fun f => (List.range n).map fun i => f i % 256

/-- `models.GenerateAPIKey`: 32 random bytes, hex-encoded, after the fixed
namespace tag `bas_`; the display piece is the first 12 characters.  Returns
`(fullKey, keyPrefix, err)` like the Go function. -/
def GenerateAPIKey (src : Option (Nat → Nat)) : String × String × Option String :=
  match randRead src 32 with
  | none => ("", "", some "entropy source failure")
  | some bytes =>
    let fullKey : List Char := "bas_".data ++ hexEncode bytes
    (⟨fullKey⟩, ⟨fullKey.take 12⟩, none)

/-- `models.GenerateClientCredentials`: a 16-byte read for the client ID
(`BAS` + first 29 hex chars = 32 chars) and a 32-byte read for the secret
(64 hex chars, display piece = first 8 chars + `...`).  Each `rand.Read`
call has its own source; returns `(clientID, clientSecret, secretPrefix, err)`. -/
def GenerateClientCredentials (idSrc secretSrc : Option (Nat → Nat)) :
    String × String × String × Option String :=
  match randRead idSrc 16 with
  | none => ("", "", "", some "entropy source failure")
  | some idBytes =>
    match randRead secretSrc 32 with
    | none => ("", "", "", some "entropy source failure")
    | some secretBytes =>
      let clientID : List Char := "BAS".data ++ (hexEncode idBytes).take 29
      let clientSecret : List Char := hexEncode secretBytes
      let secretPfx : List Char := clientSecret.take 8 ++ "...".data
      (⟨clientID⟩, ⟨clientSecret⟩, ⟨secretPfx⟩, none)

/-- `models.GenerateChannelID`: 8 random bytes, hex-encoded after the tag
`CH`. -/
def GenerateChannelID (src : Option (Nat → Nat)) : String × Option String :=
  match randRead src 8 with
  | none => ("", some "entropy source failure")
  | some bytes => (⟨"CH".data ++ hexEncode bytes⟩, none)

/-! ### Public key validator (`models.ValidatePublicKey`) -/

/-- A decoded PEM block (`encoding/pem.Block`): type line and DER bytes. -/
structure PemBlock where
  type : String
  bytes : List Nat
deriving DecidableEq, Repr

/-- The Go library primitives `ValidatePublicKey` calls, taken as parameters
of the model: `pem.Decode` (first block or none), success of
`x509.ParsePKIXPublicKey`, success of `x509.ParsePKCS1PublicKey`, and
`sha256.Sum256` (a 32-byte digest). -/
structure X509Env where
  pemDecode : String → Option PemBlock
  parsePKIXOk : List Nat → Bool
  parsePKCS1Ok : List Nat → Bool
  sha256 : List Nat → List Nat

/-- `models.ValidatePublicKey`: empty input is valid with no fingerprint;
otherwise the input must decode as a PEM block of type exactly `PUBLIC KEY`
or `RSA PUBLIC KEY`, parse under PKIX or PKCS#1, and the fingerprint is the
lowercase-hex SHA-256 of the block's DER bytes.  Returns
`(fingerprint, err)`. -/
def ValidatePublicKey (env : X509Env) (pemKey : String) : String × Option String :=
  if pemKey = "" then ("", none)
  else
    match env.pemDecode pemKey with
    | none => ("", some "invalid PEM format: no valid PEM block found")
    | some block =>
      if block.type ≠ "PUBLIC KEY" ∧ block.type ≠ "RSA PUBLIC KEY" then
        ("", some "invalid PEM format: expected PUBLIC KEY or RSA PUBLIC KEY")
      else if ¬ env.parsePKIXOk block.bytes ∧ ¬ env.parsePKCS1Ok block.bytes then
        ("", some "invalid public key: unable to parse")
      else
        (⟨hexEncode (env.sha256 block.bytes)⟩, none)

/-- `models.FormatFingerprint`: first 8 byte-pairs colon-joined plus an
ellipsis; inputs shorter than 16 characters pass through unchanged. -/
def FormatFingerprint (fingerprint : String) : String :=
  if fingerprint.data.length < 16 then fingerprint
  else
    let cs := fingerprint.data
    let pieces : List String :=
      (List.range 8).map fun i => ⟨[cs.getD (2 * i) ' ', cs.getD (2 * i + 1) ' ']⟩
    String.intercalate ":" pieces ++ "..."

/-! ### Partner credential data model and repository -/

/-- `models.PartnerCredential`.  Times are Unix seconds; `deletedAt` is the
gorm soft-delete column. -/
structure PartnerCredential where
  id : String
  userID : String
  clientID : String
  clientSecret : String
  clientSecretPrefix : String
  publicKey : String
  publicKeyFingerprint : String
  publicKeyAddedAt : Option Int
  partnerName : String
  channelID : String
  environment : String
  callbackURL : String
  ipWhitelist : List String
  isActive : Bool
  expiresAt : Option Int
  lastUsedAt : Option Int
  createdAt : Int
  updatedAt : Int
  deletedAt : Option Int
deriving DecidableEq, Repr

/-- A partner-credential table: list of rows, soft-deleted rows included. -/
abbrev CredDB := List PartnerCredential

/-- Is the row visible to gorm's default scope (not soft-deleted)? -/
def PartnerCredential.live (c : PartnerCredential) : Bool :=
  c.deletedAt.isNone

/-- `PartnerCredentialRepository.FindByIDAndUserID`:
`WHERE id = ? AND user_id = ?` under the soft-delete scope (no
`is_active` filter). -/
def findByIDAndUserID (db : CredDB) (id userID : String) : Option PartnerCredential :=
  db.find? fun c => c.live && c.id == id && c.userID == userID

/-- `PartnerCredentialRepository.FindByClientID`:
`WHERE client_id = ? AND is_active = true` under the soft-delete scope. -/
def findByClientID (db : CredDB) (clientID : String) : Option PartnerCredential :=
  db.find? fun c => c.live && c.clientID == clientID && c.isActive

/-- `PartnerCredentialRepository.FindByUserID` (active listing);
the `ORDER BY created_at DESC` is dropped, only membership matters here. -/
def findByUserID (db : CredDB) (userID : String) : List PartnerCredential :=
  db.filter fun c => c.live && c.userID == userID && c.isActive

/-- `PartnerCredentialRepository.CountByUserID`:
count of live, active rows of the user. -/
def countByUserID (db : CredDB) (userID : String) : Nat :=
  (db.filter fun c => c.live && c.userID == userID && c.isActive).length

/-- `PartnerCredentialRepository.Update` (`db.Save`): replace the row with the
same primary key; gorm stamps `updated_at`. -/
def updateStore (db : CredDB) (cred : PartnerCredential) (now : Int) : CredDB :=
  db.map fun c =>
    if c.live && c.id == cred.id then { cred with updatedAt := now } else c

/-- `PartnerCredentialRepository.Delete`: gorm soft delete — set `deleted_at`
on the matching live rows, never remove them. -/
def deleteStore (db : CredDB) (id userID : String) (now : Int) : CredDB :=
  db.map fun c =>
    if c.live && c.id == id && c.userID == userID then
      { c with deletedAt := some now } else c

/-- `PartnerCredentialRepository.UpdateLastUsed`: set `last_used_at = NOW()`
on the matching live rows (gorm also stamps `updated_at`). -/
def updateLastUsed (db : CredDB) (id : String) (now : Int) : CredDB :=
  db.map fun c =>
    if c.live && c.id == id then
      { c with lastUsedAt := some now, updatedAt := now } else c

/-! ### Partner credential service -/

/-- The sentinel service errors (`errors.New` values in the services
package). -/
inductive SvcErr where
  | credentialNotFound
  | maxCredentialsReached
  | invalidPublicKey
  | clientIDExists
  | maxKeysReached
  | keyNotFound
  | generationError
deriving DecidableEq, Repr

/-- `models.PartnerCredentialResponse`. -/
structure PartnerCredentialResponse where
  id : String
  clientID : String
  clientSecretPrefix : String
  publicKeyFingerprint : String
  publicKeyAddedAt : Option Int
  partnerName : String
  channelID : String
  environment : String
  callbackURL : String
  ipWhitelist : List String
  isActive : Bool
  expiresAt : Option Int
  lastUsedAt : Option Int
  createdAt : Int
deriving DecidableEq, Repr

/-- `PartnerCredential.ToResponse`. -/
def PartnerCredential.toResponse (p : PartnerCredential) : PartnerCredentialResponse :=
  { id := p.id
    clientID := p.clientID
    clientSecretPrefix := p.clientSecretPrefix
    publicKeyFingerprint := FormatFingerprint p.publicKeyFingerprint
    publicKeyAddedAt := p.publicKeyAddedAt
    partnerName := p.partnerName
    channelID := p.channelID
    environment := p.environment
    callbackURL := p.callbackURL
    ipWhitelist := p.ipWhitelist
    isActive := p.isActive
    expiresAt := p.expiresAt
    lastUsedAt := p.lastUsedAt
    createdAt := p.createdAt }

/-- `models.PartnerCredentialCreateResponse`: the listing view plus the full
secret, returned exactly once. -/
structure PartnerCredentialCreateResponse where
  response : PartnerCredentialResponse
  clientSecret : String
deriving DecidableEq, Repr

/-- `services.CreateCredentialInput`. -/
structure CreateCredentialInput where
  partnerName : String
  environment : String
  callbackURL : String
  ipWhitelist : List String
  publicKey : String
deriving DecidableEq, Repr

/-- `PartnerCredentialService.CreateCredential`: quota check (5 active per
user), credential generation, optional public-key validation, default
environment `sandbox`, insert of an active row.  `newID` models
`BeforeCreate`'s fresh UUID. -/
def CreateCredential (db : CredDB) (userID : String) (input : CreateCredentialInput)
    (idSrc secretSrc chanSrc : Option (Nat → Nat)) (env : X509Env)
    (newID : String) (now : Int) :
    CredDB × Except SvcErr PartnerCredentialCreateResponse :=
  if countByUserID db userID ≥ 5 then (db, Except.error SvcErr.maxCredentialsReached)
  else
    match GenerateClientCredentials idSrc secretSrc with
    | (_, _, _, some _) => (db, Except.error SvcErr.generationError)
    | (clientID, clientSecret, secretPfx, none) =>
      match GenerateChannelID chanSrc with
      | (_, some _) => (db, Except.error SvcErr.generationError)
      | (channelID, none) =>
        let pk :
            Option (String × Option Int) :=
          if input.publicKey ≠ "" then
            match ValidatePublicKey env input.publicKey with
            | (_, some _) => none
            | (fp, none) => some (fp, some now)
          else some ("", none)
        match pk with
        | none => (db, Except.error SvcErr.invalidPublicKey)
        | some (fingerprint, addedAt) =>
          let environment := if input.environment = "" then "sandbox" else input.environment
          let credential : PartnerCredential :=
            { id := newID
              userID := userID
              clientID := clientID
              clientSecret := clientSecret
              clientSecretPrefix := secretPfx
              publicKey := input.publicKey
              publicKeyFingerprint := fingerprint
              publicKeyAddedAt := addedAt
              partnerName := input.partnerName
              channelID := channelID
              environment := environment
              callbackURL := input.callbackURL
              ipWhitelist := input.ipWhitelist
              isActive := true
              expiresAt := none
              lastUsedAt := none
              createdAt := now
              updatedAt := now
              deletedAt := none }
          (db ++ [credential],
           Except.ok ⟨credential.toResponse, clientSecret⟩)

/-- `services.UpdateCredentialInput`. -/
structure UpdateCredentialInput where
  partnerName : String
  environment : String
  callbackURL : String
  ipWhitelist : List String
deriving DecidableEq, Repr

/-- The field rewrite `UpdateCredential` performs on the fetched record:
name and environment only when non-empty in the input, callback URL and IP
allow-list unconditionally. -/
def applyUpdate (cred : PartnerCredential) (input : UpdateCredentialInput) :
    PartnerCredential :=
  { cred with
    partnerName := if input.partnerName ≠ "" then input.partnerName else cred.partnerName
    environment := if input.environment ≠ "" then input.environment else cred.environment
    callbackURL := input.callbackURL
    ipWhitelist := input.ipWhitelist }

/-- `PartnerCredentialService.UpdateCredential`. -/
def UpdateCredential (db : CredDB) (id userID : String)
    (input : UpdateCredentialInput) (now : Int) :
    CredDB × Except SvcErr PartnerCredentialResponse :=
  match findByIDAndUserID db id userID with
  | none => (db, Except.error SvcErr.credentialNotFound)
  | some cred =>
    let cred' := applyUpdate cred input
    (updateStore db cred' now, Except.ok cred'.toResponse)

/-- `PartnerCredentialService.DeleteCredential`: existence check, then soft
delete. -/
def DeleteCredential (db : CredDB) (id userID : String) (now : Int) :
    CredDB × Except SvcErr Unit :=
  match findByIDAndUserID db id userID with
  | none => (db, Except.error SvcErr.credentialNotFound)
  | some _ => (deleteStore db id userID now, Except.ok ())

/-- `PartnerCredentialService.RegenerateSecret`: fetch the record, draw a
fresh secret (the fresh client ID is discarded), overwrite only the secret
and its display piece, save, return the full new secret once. -/
def RegenerateSecret (db : CredDB) (id userID : String)
    (idSrc secretSrc : Option (Nat → Nat)) (now : Int) :
    CredDB × Except SvcErr PartnerCredentialCreateResponse :=
  match findByIDAndUserID db id userID with
  | none => (db, Except.error SvcErr.credentialNotFound)
  | some cred =>
    match GenerateClientCredentials idSrc secretSrc with
    | (_, _, _, some _) => (db, Except.error SvcErr.generationError)
    | (_, clientSecret, secretPfx, none) =>
      let cred' := { cred with clientSecret := clientSecret, clientSecretPrefix := secretPfx }
      (updateStore db cred' now, Except.ok ⟨cred'.toResponse, clientSecret⟩)

/-- `PartnerCredentialService.ValidateCredential`: lookup by client ID, fail
closed with the same `ErrCredentialNotFound` on miss or secret mismatch; on
success the last-used stamp is best-effort (`lastUsedOk = false` models the
discarded repository error) and the credential is returned either way. -/
def ValidateCredential (db : CredDB) (clientID clientSecret : String)
    (lastUsedOk : Bool) (now : Int) :
    CredDB × Except SvcErr PartnerCredential :=
  match findByClientID db clientID with
  | none => (db, Except.error SvcErr.credentialNotFound)
  | some credential =>
    if credential.clientSecret ≠ clientSecret then
      (db, Except.error SvcErr.credentialNotFound)
    else
      ((if lastUsedOk then updateLastUsed db credential.id now else db),
       Except.ok credential)

/-! ### API key data model, repository and service -/

/-- `models.APIKey`. -/
structure APIKey where
  id : String
  userID : String
  name : String
  keyPrefix : String
  keyHash : String
  environment : String
  isActive : Bool
  lastUsedAt : Option Int
  expiresAt : Option Int
  createdAt : Int
  updatedAt : Int
  deletedAt : Option Int
deriving DecidableEq, Repr

/-- An API-key table. -/
abbrev KeyDB := List APIKey

/-- Not soft-deleted. -/
def APIKey.live (k : APIKey) : Bool :=
  k.deletedAt.isNone

/-- `APIKeyRepository.FindByUserID`: live, active keys of the user
(ordering dropped). -/
def apiFindByUserID (db : KeyDB) (userID : String) : List APIKey :=
  db.filter fun k => k.live && k.userID == userID && k.isActive

/-- `APIKeyRepository.CountByUserID`: count of live, active keys. -/
def apiCountByUserID (db : KeyDB) (userID : String) : Nat :=
  (db.filter fun k => k.live && k.userID == userID && k.isActive).length

/-- `APIKeyRepository.Revoke`: `UPDATE … SET is_active = false WHERE id = ?
AND user_id = ?` under the soft-delete scope (gorm stamps `updated_at`);
the row is never removed. -/
def revokeStore (db : KeyDB) (id userID : String) (now : Int) : KeyDB :=
  db.map fun k =>
    if k.live && k.id == id && k.userID == userID then
      { k with isActive := false, updatedAt := now } else k

/-- `APIKeyRepository.FindByID`: `WHERE id = ?` under the soft-delete scope
(no `is_active` filter). -/
def apiFindByID (db : KeyDB) (id : String) : Option APIKey :=
  db.find? fun k => k.live && k.id == id

/-- `APIKeyService.RevokeKey`: fetch the key, require ownership, then
deactivate it in place. -/
def RevokeKey (db : KeyDB) (keyID userID : String) (now : Int) :
    KeyDB × Except SvcErr Unit :=
  match apiFindByID db keyID with
  | none => (db, Except.error SvcErr.keyNotFound)
  | some key =>
    if key.userID ≠ userID then (db, Except.error SvcErr.keyNotFound)
    else (revokeStore db keyID userID now, Except.ok ())

/-- `services.MaxAPIKeysPerUser`. -/
def MaxAPIKeysPerUser : Nat := 10

/-- `services.CreateKeyInput`. -/
structure CreateKeyInput where
  name : String
  environment : String
deriving DecidableEq, Repr

/-- `models.APIKeyResponse`. -/
structure APIKeyResponse where
  id : String
  name : String
  keyPrefix : String
  environment : String
  isActive : Bool
  lastUsedAt : Option Int
  expiresAt : Option Int
  createdAt : Int
deriving DecidableEq, Repr

/-- `APIKey.ToResponse`. -/
def APIKey.toResponse (k : APIKey) : APIKeyResponse :=
  { id := k.id
    name := k.name
    keyPrefix := k.keyPrefix
    environment := k.environment
    isActive := k.isActive
    lastUsedAt := k.lastUsedAt
    expiresAt := k.expiresAt
    createdAt := k.createdAt }

/-- `models.APIKeyCreateResponse`: the listing view plus the full key. -/
structure APIKeyCreateResponse where
  response : APIKeyResponse
  key : String
deriving DecidableEq, Repr

/-- `APIKeyService.CreateKey`: quota check (10 active per user), key
generation, bcrypt hashing of the full key (`hash = none` models a hashing
failure), insert of an active row storing only the hash and display piece. -/
def CreateKey (db : KeyDB) (userID : String) (input : CreateKeyInput)
    (src : Option (Nat → Nat)) (hash : String → Option String)
    (newID : String) (now : Int) :
    KeyDB × Except SvcErr APIKeyCreateResponse :=
  if apiCountByUserID db userID ≥ MaxAPIKeysPerUser then
    (db, Except.error SvcErr.maxKeysReached)
  else
    match GenerateAPIKey src with
    | (_, _, some _) => (db, Except.error SvcErr.generationError)
    | (fullKey, keyPfx, none) =>
      match hash fullKey with
      | none => (db, Except.error SvcErr.generationError)
      | some keyHash =>
        let apiKey : APIKey :=
          { id := newID
            userID := userID
            name := input.name
            keyPrefix := keyPfx
            keyHash := keyHash
            environment := input.environment
            isActive := true
            lastUsedAt := none
            expiresAt := none
            createdAt := now
            updatedAt := now
            deletedAt := none }
        (db ++ [apiKey], Except.ok ⟨apiKey.toResponse, fullKey⟩)

/-! ### Fixtures and derived records used by the verification -/

/-- Is the character a lowercase hexadecimal digit? -/
def isLowerHex (c : Char) : Bool :=
  ('0' ≤ c && c ≤ '9') || ('a' ≤ c && c ≤ 'f')

/-- A demonstration principal with a canonical UUID. -/
def demoUUID : String := "123e4567-e89b-12d3-a456-426614174000"

/-- A demonstration user record. -/
def demoUser : User := ⟨demoUUID, "a@b.com"⟩

/-- A user store holding exactly the demonstration user. -/
def demoFind : String → Option User :=
  fun s => if s = demoUUID then some demoUser else none

/-- An otherwise well-formed token declaring RS256, with valid access claims
and a valid subject. -/
def rs256Demo : Token :=
  ⟨Alg.RS256,
   [("sub", JValue.str "123e4567-e89b-12d3-a456-426614174000"),
    ("email", JValue.str "a@b.com"), ("type", JValue.str "access"),
    ("exp", JValue.num 4102444800), ("iat", JValue.num 0)],
   Sig.raw "rsasig"⟩

/-- A demonstration partner credential. -/
def demoCred : PartnerCredential :=
  { id := "11111111-1111-1111-1111-111111111111"
    userID := demoUUID
    clientID := "BAS00112233445566778899aabbccdde"
    clientSecret := "s3cr3t"
    clientSecretPrefix := "s3cr3t..."
    publicKey := ""
    publicKeyFingerprint := ""
    publicKeyAddedAt := none
    partnerName := "Acme"
    channelID := "CH0011223344556677"
    environment := "sandbox"
    callbackURL := "https://example.com/cb"
    ipWhitelist := ["10.0.0.1"]
    isActive := true
    expiresAt := none
    lastUsedAt := none
    createdAt := 0
    updatedAt := 0
    deletedAt := none }

/-- The secret a successful `GenerateClientCredentials` run with byte
stream `g` produces. -/
def regenSecret (g : Nat → Nat) : String :=
  ⟨hexEncode ((List.range 32).map fun i => g i % 256)⟩

/-- The display piece of that secret. -/
def regenSecretPfx (g : Nat → Nat) : String :=
  ⟨(hexEncode ((List.range 32).map fun i => g i % 256)).take 8 ++ "...".data⟩

/-- The record `RegenerateSecret` writes back: only the secret material is
replaced. -/
def rotated (cred : PartnerCredential) (g : Nat → Nat) : PartnerCredential :=
  { cred with clientSecret := regenSecret g, clientSecretPrefix := regenSecretPfx g }

/-- A demonstration API key. -/
def mkKey (s : String) : APIKey :=
  { id := s
    userID := demoUUID
    name := "key " ++ s
    keyPrefix := "bas_00112233"
    keyHash := "$2a$10$hash"
    environment := "sandbox"
    isActive := true
    lastUsedAt := none
    expiresAt := none
    createdAt := 0
    updatedAt := 0
    deletedAt := none }

/-- Ten active demonstration keys of one owner (the API-key ceiling). -/
def tenKeys : KeyDB :=
  ["k0", "k1", "k2", "k3", "k4", "k5", "k6", "k7", "k8", "k9"].map mkKey

/-- A demonstration partner credential with chosen primary key and client
ID. -/
def mkCred (s cid : String) : PartnerCredential :=
  { demoCred with id := s, clientID := cid }

/-- Five active demonstration credentials of one owner (the partner
ceiling). -/
def fiveCreds : CredDB :=
  [mkCred "c0" "BAS0", mkCred "c1" "BAS1", mkCred "c2" "BAS2",
   mkCred "c3" "BAS3", mkCred "c4" "BAS4"]

/-- The record a successful `CreateKey` run stores. -/
def newAPIKey (uid : String) (input : CreateKeyInput) (f : Nat → Nat)
    (hsh newID : String) (now : Int) : APIKey :=
  { id := newID
    userID := uid
    name := input.name
    keyPrefix := (GenerateAPIKey (some f)).2.1
    keyHash := hsh
    environment := input.environment
    isActive := true
    lastUsedAt := none
    expiresAt := none
    createdAt := now
    updatedAt := now
    deletedAt := none }

/-- The record a successful `CreateCredential` run stores. -/
def newPartnerCred (uid : String) (input : CreateCredentialInput)
    (f g h : Nat → Nat) (fingerprint : String) (addedAt : Option Int)
    (newID : String) (now : Int) : PartnerCredential :=
  { id := newID
    userID := uid
    clientID := (GenerateClientCredentials (some f) (some g)).1
    clientSecret := (GenerateClientCredentials (some f) (some g)).2.1
    clientSecretPrefix := (GenerateClientCredentials (some f) (some g)).2.2.1
    publicKey := input.publicKey
    publicKeyFingerprint := fingerprint
    publicKeyAddedAt := addedAt
    partnerName := input.partnerName
    channelID := (GenerateChannelID (some h)).1
    environment := if input.environment = "" then "sandbox" else input.environment
    callbackURL := input.callbackURL
    ipWhitelist := input.ipWhitelist
    isActive := true
    expiresAt := none
    lastUsedAt := none
    createdAt := now
    updatedAt := now
    deletedAt := none }

/-- A PEM environment in which nothing decodes or parses. -/
def badPemEnv : X509Env :=
  { pemDecode := fun _ => none
    parsePKIXOk := fun _ => false
    parsePKCS1Ok := fun _ => false
    sha256 := fun _ => [] }

/-- A PEM environment with two decodable inputs: a public key and a
certificate; PKIX parsing succeeds, PKCS#1 fails. -/
def demoPemEnv : X509Env :=
  { pemDecode := fun s =>
      if s = "PUBKEYPEM" then some ⟨"PUBLIC KEY", [1, 2, 3]⟩
      else if s = "CERTPEM" then some ⟨"CERTIFICATE", [4]⟩
      else none
    parsePKIXOk := fun _ => true
    parsePKCS1Ok := fun _ => false
    sha256 := fun _ => List.replicate 32 171 }

/-! ### Theorems -/

/-- Any token whose declared algorithm is not in the HMAC family fails
`jwt.Parse` under both keyfuncs: the HMAC-checking keyfunc rejects it, and
with the permissive keyfunc the `[]byte` key is unusable for every
registered non-HMAC method. -/
theorem libParse_nonHMAC_error (rq : Bool) (secret : String) (now : Int)
    (t : Token) (h : t.alg.isHMAC = false) :
    ∃ e, libParse rq secret now t = Except.error e := by
  unfold libParse
  by_cases hr : t.alg.isRegistered
  · simp [hr, h]
    cases rq <;> simp
  · simp [hr]

/-- An HMAC-self-signed HS256 token with an unexpired numeric `exp` claim
passes `jwt.Parse` under either keyfunc. -/
theorem libParse_hmac_ok (rq : Bool) (secret : String) (now : Int)
    (cs : Claims) (e : Int) (hexp : getClaim cs "exp" = some (JValue.num e))
    (hnotExp : ¬ e < now) :
    libParse rq secret now ⟨Alg.HS256, cs, Sig.hmac Alg.HS256 secret cs⟩ =
      Except.ok cs := by
  unfold libParse sigVerify
  simp [Alg.isRegistered, Alg.isHMAC, hexp, hnotExp]

/-- C1: a presented token whose header declares a signing algorithm outside
the HMAC family is rejected by both verification paths — `JWTAuth`'s token
check returns the unauthorized response and `AuthService.RefreshToken`
returns the invalid-refresh-token error — even when the claims are
otherwise well-formed; neither path resolves a principal. -/
theorem jwt_nonHMAC_always_rejected (t : Token) (h : t.alg.isHMAC = false)
    (secret : String) (now : Int) (expiryHours : Int)
    (findUser : String → Option User) :
    jwtAuthCheckToken secret now t =
      Except.error ⟨401, "Unauthorized", "Invalid or expired token"⟩ ∧
    RefreshToken secret expiryHours now findUser t =
      Except.error "invalid refresh token" := by
  obtain ⟨e1, he1⟩ := libParse_nonHMAC_error true secret now t h
  obtain ⟨e2, he2⟩ := libParse_nonHMAC_error false secret now t h
  constructor
  · unfold jwtAuthCheckToken
    rw [he1]
  · unfold RefreshToken
    rw [he2]

/-- A well-formed RS256 token carrying valid access claims and a valid
subject: rejected by both paths by C1. -/
theorem jwt_nonHMAC_always_rejected_witness :
    rs256Demo.alg.isHMAC = false ∧
    jwtAuthCheckToken "topsecret" 1700000000 rs256Demo =
      Except.error ⟨401, "Unauthorized", "Invalid or expired token"⟩ ∧
    RefreshToken "topsecret" 24 1700000000 (fun _ => none) rs256Demo =
      Except.error "invalid refresh token" :=
  ⟨rfl,
   jwt_nonHMAC_always_rejected rs256Demo rfl "topsecret" 1700000000 24
     (fun _ => none)⟩

/-- C2: for every principal and issuance, the minted access token is accepted
by `JWTAuth` and rejected by `RefreshToken` with the invalid-type error, and
the minted refresh token is accepted by `RefreshToken` and rejected by
`JWTAuth` with the invalid-type response — wrong-type rejection happens even
though signature, expiry and subject are valid. -/
theorem tokenType_roundTrip (secret : String) (hours now : Int) (u : User)
    (findUser : String → Option User) (hu : isUUID u.id = true)
    (hh : 0 ≤ hours) (hf : findUser u.id = some u) :
    jwtAuthCheckToken secret now (generateAuthResponse secret hours now u).accessToken =
      Except.ok ⟨u.id, some (JValue.str u.email)⟩ ∧
    jwtAuthCheckToken secret now (generateAuthResponse secret hours now u).refreshToken =
      Except.error ⟨401, "Unauthorized", "Invalid token type"⟩ ∧
    RefreshToken secret hours now findUser (generateAuthResponse secret hours now u).refreshToken =
      Except.ok (generateAuthResponse secret hours now u) ∧
    RefreshToken secret hours now findUser (generateAuthResponse secret hours now u).accessToken =
      Except.error "invalid token type" := by
  have haexp : ¬ (now + hours * 3600) < now := by omega
  have hrexp : ¬ (now + hours * 7 * 3600) < now := by
    have h7 : 0 ≤ hours * 7 := by omega
    omega
  have hacc := libParse_hmac_ok true secret now
    [("sub", JValue.str u.id), ("email", JValue.str u.email),
     ("type", JValue.str "access"), ("exp", JValue.num (now + hours * 3600)),
     ("iat", JValue.num now)] (now + hours * 3600) rfl haexp
  have hacc' := libParse_hmac_ok false secret now
    [("sub", JValue.str u.id), ("email", JValue.str u.email),
     ("type", JValue.str "access"), ("exp", JValue.num (now + hours * 3600)),
     ("iat", JValue.num now)] (now + hours * 3600) rfl haexp
  have href := libParse_hmac_ok true secret now
    [("sub", JValue.str u.id), ("type", JValue.str "refresh"),
     ("exp", JValue.num (now + hours * 7 * 3600)), ("iat", JValue.num now)]
    (now + hours * 7 * 3600) rfl hrexp
  have href' := libParse_hmac_ok false secret now
    [("sub", JValue.str u.id), ("type", JValue.str "refresh"),
     ("exp", JValue.num (now + hours * 7 * 3600)), ("iat", JValue.num now)]
    (now + hours * 7 * 3600) rfl hrexp
  refine ⟨?_, ?_, ?_, ?_⟩
  · unfold jwtAuthCheckToken
    rw [show (generateAuthResponse secret hours now u).accessToken =
      ⟨Alg.HS256, _, Sig.hmac Alg.HS256 secret _⟩ from rfl, hacc]
    simp [getStrClaim, getClaim, hu]
  · unfold jwtAuthCheckToken
    rw [show (generateAuthResponse secret hours now u).refreshToken =
      ⟨Alg.HS256, _, Sig.hmac Alg.HS256 secret _⟩ from rfl, href]
    rfl
  · unfold RefreshToken
    rw [show (generateAuthResponse secret hours now u).refreshToken =
      ⟨Alg.HS256, _, Sig.hmac Alg.HS256 secret _⟩ from rfl, href']
    simp [getStrClaim, getClaim, hu, hf]
  · unfold RefreshToken
    rw [show (generateAuthResponse secret hours now u).accessToken =
      ⟨Alg.HS256, _, Sig.hmac Alg.HS256 secret _⟩ from rfl, hacc']
    rfl

/-- C2 at a concrete issuance for the demonstration user. -/
theorem tokenType_roundTrip_witness :
    jwtAuthCheckToken "k" 0 (generateAuthResponse "k" 1 0 demoUser).accessToken =
      Except.ok ⟨demoUser.id, some (JValue.str demoUser.email)⟩ ∧
    jwtAuthCheckToken "k" 0 (generateAuthResponse "k" 1 0 demoUser).refreshToken =
      Except.error ⟨401, "Unauthorized", "Invalid token type"⟩ ∧
    RefreshToken "k" 1 0 demoFind (generateAuthResponse "k" 1 0 demoUser).refreshToken =
      Except.ok (generateAuthResponse "k" 1 0 demoUser) ∧
    RefreshToken "k" 1 0 demoFind (generateAuthResponse "k" 1 0 demoUser).accessToken =
      Except.error "invalid token type" :=
  tokenType_roundTrip "k" 1 0 demoUser demoFind (by decide) (by decide) (by rfl)

/-- If some member of `l` satisfies `p` and every satisfying member equals
`a`, then `find?` returns `a`. -/
theorem find?_eq_of_unique {α : Type} (l : List α) (p : α → Bool) (a : α)
    (ha : a ∈ l) (hpa : p a = true)
    (huniq : ∀ b ∈ l, p b = true → b = a) :
    l.find? p = some a := by
  induction l with
  | nil => cases ha
  | cons c cs ih =>
    by_cases hc : p c = true
    · have hca : c = a := huniq c (List.mem_cons_self c cs) hc
      rw [List.find?_cons_of_pos _ hc, hca]
    · have hca : c ≠ a := fun h => hc (h ▸ hpa)
      have ha' : a ∈ cs := by
        rcases List.mem_cons.mp ha with h | h
        · exact absurd h.symm hca
        · exact h
      rw [List.find?_cons_of_neg _ hc]
      exact ih ha' (fun b hb hpb => huniq b (List.mem_cons_of_mem _ hb) hpb)

/-- Replacing exactly the rows a single-row `UPDATE` touches: if the first
`p`-match of `l` is `a`, only rows equal to `a` are touched (`upd`), `a` is
touched, and the replacement `a'` still matches `p`, then the first
`p`-match of the updated list is `a'`. -/
theorem find?_map_update {α : Type} (l : List α) (p upd : α → Bool) (a a' : α)
    (hfind : l.find? p = some a)
    (hupd : ∀ b ∈ l, upd b = true → b = a)
    (hupda : upd a = true)
    (hpa' : p a' = true) :
    (l.map fun b => if upd b then a' else b).find? p = some a' := by
  induction l with
  | nil => simp at hfind
  | cons c cs ih =>
    by_cases hc : p c = true
    · rw [List.find?_cons_of_pos _ hc] at hfind
      have hca : c = a := by injection hfind
      rw [List.map_cons, hca, if_pos hupda, List.find?_cons_of_pos _ hpa']
    · rw [List.find?_cons_of_neg _ hc] at hfind
      have hpa : p a = true := List.find?_some hfind
      have hcu : ¬ upd c = true := fun h => by
        have hca := hupd c (List.mem_cons_self c cs) h
        rw [hca] at hc
        exact hc hpa
      rw [List.map_cons, if_neg hcu, List.find?_cons_of_neg _ hc]
      exact ih hfind (fun b hb h => hupd b (List.mem_cons_of_mem _ hb) h)

/-- A single-row replacement whose image satisfies the counting predicate
exactly as the original did leaves `countP` unchanged. -/
theorem countP_map_update {α : Type} (l : List α) (q upd : α → Bool) (a a' : α)
    (hupd : ∀ b ∈ l, upd b = true → b = a)
    (hq : q a' = q a) :
    (l.map fun b => if upd b then a' else b).countP q = l.countP q := by
  rw [List.countP_map]
  apply List.countP_congr
  intro b hb
  by_cases hu : upd b = true
  · have hba := hupd b hb hu
    have hua : upd a = true := hba ▸ hu
    simp [Function.comp, hu, hua, hq, hba]
  · simp [Function.comp, hu]

/-- Flipping exactly one row (`a`, present once by `Nodup`) out of the
counting predicate — the touched rows being rewritten in place by `repl` —
decrements `countP` by one. -/
theorem countP_map_flip {α : Type} (l : List α) (q upd : α → Bool)
    (repl : α → α) (a : α) (hnd : l.Nodup) (ha : a ∈ l)
    (hupd : ∀ b ∈ l, upd b = true → b = a) (hupda : upd a = true)
    (hqa : q a = true) (hqa' : q (repl a) = false) :
    (l.map fun b => if upd b then repl b else b).countP q = l.countP q - 1 := by
  induction l with
  | nil => cases ha
  | cons c cs ih =>
    rcases List.mem_cons.mp ha with hca | hacs
    · have hceq : c = a := hca.symm
      subst hceq
      have hnotin : c ∉ cs := (List.nodup_cons.mp hnd).1
      have htail : (cs.map fun b => if upd b then repl b else b).countP q =
          cs.countP q := by
        rw [List.countP_map]
        apply List.countP_congr
        intro b hb
        have hbu : ¬ upd b = true := fun h =>
          hnotin ((hupd b (List.mem_cons_of_mem _ hb) h) ▸ hb)
        simp [Function.comp, hbu]
      rw [List.map_cons, if_pos hupda, List.countP_cons, List.countP_cons,
        htail, hqa', hqa]
      simp
    · have hcne : c ≠ a := by
        intro h
        exact (List.nodup_cons.mp hnd).1 (h ▸ hacs)
      have hcu : ¬ upd c = true := fun h => hcne (hupd c (List.mem_cons_self c cs) h)
      have hpos : 0 < cs.countP q := by
        rw [List.countP_pos]
        exact ⟨a, hacs, hqa⟩
      rw [List.map_cons, if_neg hcu, List.countP_cons, List.countP_cons,
        ih (List.nodup_cons.mp hnd).2 hacs
          (fun b hb h => hupd b (List.mem_cons_of_mem _ hb) h)]
      by_cases hqc : q c = true
      all_goals simp [hqc]
      all_goals omega

/-- C4: `ValidateCredential` fails closed with the single error value
`ErrCredentialNotFound` both on a client-ID lookup miss and on a stored-vs-
presented secret mismatch (the two causes are indistinguishable), and on a
match it returns the credential and succeeds even when the best-effort
last-used update errors (`lastUsedOk = false`). -/
theorem validateCredential_failClosed (db : CredDB) (clientID secret : String)
    (lastUsedOk : Bool) (now : Int) :
    (findByClientID db clientID = none →
       ValidateCredential db clientID secret lastUsedOk now =
         (db, Except.error SvcErr.credentialNotFound)) ∧
    (∀ cred, findByClientID db clientID = some cred →
       cred.clientSecret ≠ secret →
       ValidateCredential db clientID secret lastUsedOk now =
         (db, Except.error SvcErr.credentialNotFound)) ∧
    (∀ cred, findByClientID db clientID = some cred →
       cred.clientSecret = secret →
       ValidateCredential db clientID secret false now = (db, Except.ok cred)) := by
  refine ⟨?_, ?_, ?_⟩
  · intro hmiss
    unfold ValidateCredential
    rw [hmiss]
  · intro cred hfind hne
    unfold ValidateCredential
    rw [hfind]
    simp [hne]
  · intro cred hfind heq
    unfold ValidateCredential
    rw [hfind]
    simp [heq]

/-- C4 at a one-row store: miss, wrong secret, and right secret with a
failing last-used update. -/
theorem validateCredential_failClosed_witness :
    ValidateCredential [demoCred] "BASnope" "s3cr3t" true 5 =
      ([demoCred], Except.error SvcErr.credentialNotFound) ∧
    ValidateCredential [demoCred] demoCred.clientID "wrong" true 5 =
      ([demoCred], Except.error SvcErr.credentialNotFound) ∧
    ValidateCredential [demoCred] demoCred.clientID "s3cr3t" false 5 =
      ([demoCred], Except.ok demoCred) := by
  refine ⟨?_, ?_, ?_⟩
  · exact (validateCredential_failClosed [demoCred] "BASnope" "s3cr3t" true 5).1
      (by decide)
  · exact (validateCredential_failClosed [demoCred] demoCred.clientID "wrong" true 5).2.1
      demoCred (by decide) (by decide)
  · exact (validateCredential_failClosed [demoCred] demoCred.clientID "s3cr3t" true 5).2.2
      demoCred (by decide) (by decide)

/-- `ValidateCredential` when the client-ID lookup hits: the outcome is the
stored-vs-presented secret comparison. -/
theorem validateCredential_found (db : CredDB) (cid s : String) (lastUsedOk : Bool)
    (now : Int) (c : PartnerCredential) (h : findByClientID db cid = some c) :
    ValidateCredential db cid s lastUsedOk now =
      if c.clientSecret ≠ s then (db, Except.error SvcErr.credentialNotFound)
      else ((if lastUsedOk then updateLastUsed db c.id now else db), Except.ok c) := by
  unfold ValidateCredential
  rw [h]

/-- C3: a successful `RegenerateSecret` writes back the fetched record with
only `ClientSecret`/`ClientSecretPrefix` replaced by the newly generated
values (returned once in the response); identity, ownership, public-key
fields, partner metadata, active flag and the quota count are unchanged; and
afterwards `ValidateCredential` rejects the old secret and accepts the new
one.  Hypotheses: the record exists, is active, primary key and client ID
identify it uniquely, and the fresh secret differs from the old one. -/
theorem regenerateSecret_rotation (db : CredDB) (id userID : String)
    (f g : Nat → Nat) (now : Int) (cred : PartnerCredential)
    (hfind : findByIDAndUserID db id userID = some cred)
    (hactive : cred.isActive = true)
    (hkey : ∀ c ∈ db, c.id = cred.id → c = cred)
    (hclient : ∀ c ∈ db, c.clientID = cred.clientID → c = cred)
    (hne : regenSecret g ≠ cred.clientSecret) :
    (ValidateCredential (RegenerateSecret db id userID (some f) (some g) now).1
        cred.clientID cred.clientSecret true now).2 =
      Except.error SvcErr.credentialNotFound ∧
    (ValidateCredential (RegenerateSecret db id userID (some f) (some g) now).1
        cred.clientID (regenSecret g) true now).2 =
      Except.ok { rotated cred g with updatedAt := now } ∧
    RegenerateSecret db id userID (some f) (some g) now =
      (updateStore db (rotated cred g) now,
       Except.ok ⟨(rotated cred g).toResponse, regenSecret g⟩) ∧
    findByIDAndUserID (RegenerateSecret db id userID (some f) (some g) now).1
        id userID = some { rotated cred g with updatedAt := now } ∧
    countByUserID (RegenerateSecret db id userID (some f) (some g) now).1 userID =
      countByUserID db userID ∧
    (rotated cred g).clientSecret = regenSecret g ∧
    (rotated cred g).clientSecretPrefix = regenSecretPfx g ∧
    (rotated cred g).id = cred.id ∧
    (rotated cred g).clientID = cred.clientID ∧
    (rotated cred g).userID = cred.userID ∧
    (rotated cred g).publicKey = cred.publicKey ∧
    (rotated cred g).publicKeyFingerprint = cred.publicKeyFingerprint ∧
    (rotated cred g).publicKeyAddedAt = cred.publicKeyAddedAt ∧
    (rotated cred g).partnerName = cred.partnerName ∧
    (rotated cred g).channelID = cred.channelID ∧
    (rotated cred g).environment = cred.environment ∧
    (rotated cred g).callbackURL = cred.callbackURL ∧
    (rotated cred g).ipWhitelist = cred.ipWhitelist ∧
    (rotated cred g).isActive = cred.isActive := by
  have hmem : cred ∈ db := List.mem_of_find?_eq_some hfind
  have hfind' : db.find? (fun c => c.live && c.id == id && c.userID == userID) =
      some cred := hfind
  have hp := List.find?_some hfind'
  rw [Bool.and_eq_true, Bool.and_eq_true] at hp
  obtain ⟨⟨hlive, hid⟩, huid⟩ := hp
  rw [beq_iff_eq] at hid huid
  -- the service call reduces to an update with the rotated record
  have h1 : RegenerateSecret db id userID (some f) (some g) now =
      (updateStore db (rotated cred g) now,
       Except.ok ⟨(rotated cred g).toResponse, regenSecret g⟩) := by
    unfold RegenerateSecret
    rw [hfind]
    rfl
  -- the written row, as the id+user lookup sees it
  have hupd : ∀ b ∈ db, (b.live && b.id == (rotated cred g).id) = true → b = cred := by
    intro b hb h
    rw [Bool.and_eq_true, beq_iff_eq] at h
    exact hkey b hb h.2
  have hupda : (cred.live && cred.id == (rotated cred g).id) = true := by
    rw [Bool.and_eq_true, beq_iff_eq]
    exact ⟨hlive, rfl⟩
  have hfindRow : findByIDAndUserID (updateStore db (rotated cred g) now) id userID =
      some { rotated cred g with updatedAt := now } := by
    unfold findByIDAndUserID updateStore
    apply find?_map_update db _ _ cred _ hfind' hupd hupda
    rw [Bool.and_eq_true, Bool.and_eq_true, beq_iff_eq, beq_iff_eq]
    exact ⟨⟨hlive, hid⟩, huid⟩
  -- quota slot: the active count of the owner is unchanged
  have hcount : countByUserID (updateStore db (rotated cred g) now) userID =
      countByUserID db userID := by
    unfold countByUserID updateStore
    rw [← List.countP_eq_length_filter, ← List.countP_eq_length_filter]
    exact countP_map_update db _ _ cred _ hupd rfl
  -- the client-ID lookup also resolves to the written row
  have hfindCid : db.find? (fun c => c.live && c.clientID == cred.clientID && c.isActive) =
      some cred := by
    apply find?_eq_of_unique db _ cred hmem
    · rw [Bool.and_eq_true, Bool.and_eq_true, beq_iff_eq]
      exact ⟨⟨hlive, rfl⟩, hactive⟩
    · intro b hb hpb
      rw [Bool.and_eq_true, Bool.and_eq_true, beq_iff_eq] at hpb
      exact hclient b hb hpb.1.2
  have hfindCid' : findByClientID (updateStore db (rotated cred g) now) cred.clientID =
      some { rotated cred g with updatedAt := now } := by
    unfold findByClientID updateStore
    apply find?_map_update db _ _ cred _ hfindCid hupd hupda
    rw [Bool.and_eq_true, Bool.and_eq_true, beq_iff_eq]
    exact ⟨⟨hlive, rfl⟩, hactive⟩
  refine ⟨?_, ?_, h1, ?_, ?_, rfl, rfl, rfl, rfl, rfl, rfl, rfl, rfl, rfl, rfl,
    rfl, rfl, rfl, rfl⟩
  · rw [h1, validateCredential_found _ _ _ _ _ _ hfindCid']
    split
    · rfl
    · rename_i hcontra
      exact absurd (not_not.mp hcontra) hne
  · rw [h1, validateCredential_found _ _ _ _ _ _ hfindCid']
    split
    · rename_i hcontra
      exact absurd rfl hcontra
    · rfl
  · rw [h1]
    exact hfindRow
  · rw [h1]
    exact hcount

/-- C3 at a one-row store with concrete byte streams: the old secret is
rejected, the new one accepted. -/
theorem regenerateSecret_rotation_witness :
    (ValidateCredential (RegenerateSecret [demoCred] demoCred.id demoUUID
        (some fun i => i) (some fun i => i) 9).1
        demoCred.clientID demoCred.clientSecret true 9).2 =
      Except.error SvcErr.credentialNotFound ∧
    (ValidateCredential (RegenerateSecret [demoCred] demoCred.id demoUUID
        (some fun i => i) (some fun i => i) 9).1
        demoCred.clientID (regenSecret fun i => i) true 9).2 =
      Except.ok { rotated demoCred (fun i => i) with updatedAt := 9 } := by
  have h := regenerateSecret_rotation [demoCred] demoCred.id demoUUID
    (fun i => i) (fun i => i) 9 demoCred (by decide) (by decide)
    (by decide) (by decide) (by decide)
  exact ⟨h.1, h.2.1⟩

/-- C10: `UpdateCredential` overwrites name/environment only from non-empty
input, always overwrites callback URL and IP allow-list (so omitted inputs
clear them), and leaves identity, secret material, public-key fields and the
active flag untouched; the service writes back exactly this rewrite of the
fetched record. -/
theorem updateCredential_asymmetric (cred : PartnerCredential)
    (input : UpdateCredentialInput) :
    ((applyUpdate cred input).partnerName =
       if input.partnerName = "" then cred.partnerName else input.partnerName) ∧
    ((applyUpdate cred input).environment =
       if input.environment = "" then cred.environment else input.environment) ∧
    (applyUpdate cred input).callbackURL = input.callbackURL ∧
    (applyUpdate cred input).ipWhitelist = input.ipWhitelist ∧
    (applyUpdate cred input).id = cred.id ∧
    (applyUpdate cred input).clientID = cred.clientID ∧
    (applyUpdate cred input).clientSecret = cred.clientSecret ∧
    (applyUpdate cred input).clientSecretPrefix = cred.clientSecretPrefix ∧
    (applyUpdate cred input).publicKey = cred.publicKey ∧
    (applyUpdate cred input).publicKeyFingerprint = cred.publicKeyFingerprint ∧
    (applyUpdate cred input).publicKeyAddedAt = cred.publicKeyAddedAt ∧
    (applyUpdate cred input).isActive = cred.isActive ∧
    (∀ db id userID now, findByIDAndUserID db id userID = some cred →
       UpdateCredential db id userID input now =
         (updateStore db (applyUpdate cred input) now,
          Except.ok (applyUpdate cred input).toResponse)) := by
  refine ⟨?_, ?_, rfl, rfl, rfl, rfl, rfl, rfl, rfl, rfl, rfl, rfl, ?_⟩
  · by_cases h : input.partnerName = "" <;> simp [applyUpdate, h]
  · by_cases h : input.environment = "" <;> simp [applyUpdate, h]
  · intro db id userID now hfind
    unfold UpdateCredential
    rw [hfind]

/-- C10 on the demonstration record: an update with empty name, non-empty
environment, and omitted callback/allow-list. -/
theorem updateCredential_asymmetric_witness :
    (applyUpdate demoCred ⟨"", "production", "", []⟩).partnerName =
      demoCred.partnerName ∧
    UpdateCredential [demoCred] demoCred.id demoUUID ⟨"", "production", "", []⟩ 3 =
      (updateStore [demoCred] (applyUpdate demoCred ⟨"", "production", "", []⟩) 3,
       Except.ok (applyUpdate demoCred ⟨"", "production", "", []⟩).toResponse) := by
  have h := updateCredential_asymmetric demoCred ⟨"", "production", "", []⟩
  refine ⟨?_, h.2.2.2.2.2.2.2.2.2.2.2.2 [demoCred] demoCred.id demoUUID 3 (by decide)⟩
  rw [h.1]
  rfl

/-- Below the key quota, with working entropy and hashing, `CreateKey`
appends one active record and succeeds. -/
theorem createKey_ok (db : KeyDB) (uid : String) (input : CreateKeyInput)
    (f : Nat → Nat) (hsh : String) (newID : String) (now : Int)
    (hq : apiCountByUserID db uid < 10) :
    CreateKey db uid input (some f) (fun _ => some hsh) newID now =
      (db ++ [newAPIKey uid input f hsh newID now],
       Except.ok ⟨(newAPIKey uid input f hsh newID now).toResponse,
                  (GenerateAPIKey (some f)).1⟩) := by
  unfold CreateKey
  rw [if_neg (by simp only [MaxAPIKeysPerUser, ge_iff_le, not_le]; exact hq)]
  rfl

/-- Below the credential quota, with working entropy and a public key that
validates (or is absent), `CreateCredential` appends one active record and
succeeds. -/
theorem createCredential_ok (db : CredDB) (uid : String)
    (input : CreateCredentialInput) (f g h : Nat → Nat) (env : X509Env)
    (newID : String) (now : Int) (fp : String)
    (hq : countByUserID db uid < 5)
    (hv : ValidatePublicKey env input.publicKey = (fp, none)) :
    ∃ c r, CreateCredential db uid input (some f) (some g) (some h) env newID now =
      (db ++ [c], Except.ok r) ∧ c.isActive = true := by
  by_cases hpk : input.publicKey = ""
  · refine ⟨newPartnerCred uid input f g h "" none newID now,
      ⟨(newPartnerCred uid input f g h "" none newID now).toResponse,
       (GenerateClientCredentials (some f) (some g)).2.1⟩, ?_, rfl⟩
    unfold CreateCredential
    rw [if_neg (by omega)]
    rw [if_neg (not_not_intro hpk)]
    rfl
  · refine ⟨newPartnerCred uid input f g h fp (some now) newID now,
      ⟨(newPartnerCred uid input f g h fp (some now) newID now).toResponse,
       (GenerateClientCredentials (some f) (some g)).2.1⟩, ?_, rfl⟩
    unfold CreateCredential
    rw [if_neg (by omega)]
    rw [hv]
    rw [if_pos hpk]
    rfl

/-- C5 counterexample: with zero existing credentials (far below the
ceiling of 5) and fully working entropy sources, `CreateCredential` still
fails — with the invalid-public-key error — when the supplied public key
does not validate; so "below the ceiling (absent generation/storage
failure) creation succeeds" is false as stated. -/
theorem createCredential_quota_counterexample :
    countByUserID [] demoUUID < 5 ∧
    (GenerateClientCredentials (some fun i => i) (some fun i => i)).2.2.2 = none ∧
    (GenerateChannelID (some fun i => i)).2 = none ∧
    (CreateCredential [] demoUUID ⟨"Acme", "", "", [], "not a pem"⟩
        (some fun i => i) (some fun i => i) (some fun i => i) badPemEnv
        "id1" 0).2 = Except.error SvcErr.invalidPublicKey := by
  exact ⟨by decide, rfl, rfl, rfl⟩

/-- C5 (amended): creating an API key fails with `ErrMaxKeysReached` iff the
owner's active-key count is at or above 10, and creating a partner
credential fails with `ErrMaxCredentialsReached` iff the active-credential
count is at or above 5; below the ceiling — absent generation/storage
failure and, for partner credentials, with an empty or valid public key —
creation succeeds and the new record is active. -/
theorem quota_ceiling (kdb : KeyDB) (db : CredDB) (userID : String)
    (inputK : CreateKeyInput) (inputC : CreateCredentialInput)
    (srcK idSrc secretSrc chanSrc : Option (Nat → Nat))
    (hash : String → Option String) (env : X509Env) (newID : String) (now : Int) :
    ((CreateKey kdb userID inputK srcK hash newID now).2 =
        Except.error SvcErr.maxKeysReached ↔ 10 ≤ apiCountByUserID kdb userID) ∧
    ((CreateCredential db userID inputC idSrc secretSrc chanSrc env newID now).2 =
        Except.error SvcErr.maxCredentialsReached ↔ 5 ≤ countByUserID db userID) ∧
    (∀ (f : Nat → Nat) (hsh : String), apiCountByUserID kdb userID < 10 →
       ∃ k r, CreateKey kdb userID inputK (some f) (fun _ => some hsh) newID now =
         (kdb ++ [k], Except.ok r) ∧ k.isActive = true) ∧
    (∀ (f g h : Nat → Nat) (fp : String), countByUserID db userID < 5 →
       ValidatePublicKey env inputC.publicKey = (fp, none) →
       ∃ c r, CreateCredential db userID inputC (some f) (some g) (some h) env newID now =
         (db ++ [c], Except.ok r) ∧ c.isActive = true) := by
  refine ⟨?_, ?_,
    fun f hsh hq => ⟨newAPIKey userID inputK f hsh newID now,
      ⟨(newAPIKey userID inputK f hsh newID now).toResponse, (GenerateAPIKey (some f)).1⟩,
      createKey_ok kdb userID inputK f hsh newID now hq, rfl⟩,
    fun f g h fp hq hv => createCredential_ok db userID inputC f g h env newID now fp hq hv⟩
  · unfold CreateKey
    by_cases hq : apiCountByUserID kdb userID ≥ MaxAPIKeysPerUser
    · rw [if_pos hq]
      exact iff_of_true rfl hq
    · rw [if_neg hq]
      refine iff_of_false ?_ hq
      rcases hA : GenerateAPIKey srcK with ⟨fk, pfx, _ | e⟩
      · cases hh : hash fk with
        | none => simp [hh]
        | some kh => simp [hh]
      · simp
  · unfold CreateCredential
    by_cases hq : countByUserID db userID ≥ 5
    · rw [if_pos hq]
      exact iff_of_true rfl hq
    · rw [if_neg hq]
      refine iff_of_false ?_ hq
      rcases hA : GenerateClientCredentials idSrc secretSrc with ⟨cid, cs, pfx, _ | e⟩
      · rcases hB : GenerateChannelID chanSrc with ⟨chid, _ | e2⟩
        · by_cases hpk : inputC.publicKey ≠ ""
          · rw [if_pos hpk]
            rcases hV : ValidatePublicKey env inputC.publicKey with ⟨fp, _ | e3⟩
            · simp
            · simp
          · rw [if_neg hpk]
            simp
        · simp
      · simp

/-- C5 at the concrete fixtures: both quota errors at the ceilings, and both
creations succeeding on empty stores. -/
theorem quota_ceiling_witness :
    (CreateKey tenKeys demoUUID ⟨"n", "sandbox"⟩ none (fun _ => none) "nid" 0).2 =
      Except.error SvcErr.maxKeysReached ∧
    (CreateCredential fiveCreds demoUUID ⟨"Acme", "", "", [], ""⟩
        none none none badPemEnv "nid" 0).2 =
      Except.error SvcErr.maxCredentialsReached ∧
    (∃ k r, CreateKey [] demoUUID ⟨"n", "sandbox"⟩ (some fun i => i)
        (fun _ => some "h") "nid" 0 = ([] ++ [k], Except.ok r) ∧
        k.isActive = true) ∧
    (∃ c r, CreateCredential [] demoUUID ⟨"Acme", "", "", [], ""⟩
        (some fun i => i) (some fun i => i) (some fun i => i) badPemEnv
        "nid" 0 = ([] ++ [c], Except.ok r) ∧ c.isActive = true) := by
  have h1 := quota_ceiling tenKeys fiveCreds demoUUID ⟨"n", "sandbox"⟩
    ⟨"Acme", "", "", [], ""⟩ none none none none (fun _ => none)
    badPemEnv "nid" 0
  have h2 := quota_ceiling [] [] demoUUID ⟨"n", "sandbox"⟩
    ⟨"Acme", "", "", [], ""⟩ none none none none (fun _ => none)
    badPemEnv "nid" 0
  exact ⟨h1.1.mpr (by decide), h1.2.1.mpr (by decide),
    h2.2.2.1 (fun i => i) "h" (by decide),
    h2.2.2.2 (fun i => i) (fun i => i) (fun i => i) "" (by decide) (by decide)⟩

/-- `hexDigitChar` of a value below 16 is a lowercase hex digit. -/
theorem hexDigitChar_lowerHex (n : Nat) (h : n < 16) :
    isLowerHex (hexDigitChar n) = true := by
  interval_cases n <;> decide

/-- Both characters of an encoded byte are lowercase hex digits. -/
theorem hexEncodeByte_lowerHex (b : Nat) :
    ∀ c ∈ hexEncodeByte b, isLowerHex c = true := by
  intro c hc
  unfold hexEncodeByte at hc
  rcases List.mem_cons.mp hc with h | h
  · subst h
    exact hexDigitChar_lowerHex _ (Nat.mod_lt _ (by norm_num))
  · rcases List.mem_cons.mp h with h2 | h2
    · subst h2
      exact hexDigitChar_lowerHex _ (Nat.mod_lt _ (by norm_num))
    · cases h2

/-- Hex encoding doubles the length. -/
theorem hexEncode_length (bs : List Nat) : (hexEncode bs).length = 2 * bs.length := by
  unfold hexEncode
  induction bs with
  | nil => rfl
  | cons b bs ih =>
    simp only [List.map_cons, List.flatten_cons, List.length_append, List.length_cons]
    unfold hexEncode at ih
    rw [ih]
    simp [hexEncodeByte]
    omega

/-- Every character of a hex encoding is a lowercase hex digit. -/
theorem hexEncode_lowerHex (bs : List Nat) :
    ∀ c ∈ hexEncode bs, isLowerHex c = true := by
  intro c hc
  unfold hexEncode at hc
  rw [List.mem_flatten] at hc
  obtain ⟨l, hl, hcl⟩ := hc
  rw [List.mem_map] at hl
  obtain ⟨b, _, rfl⟩ := hl
  exact hexEncodeByte_lowerHex b c hcl

/-- C7: whenever the random source succeeds, the generated secrets match
their fixed formats — API key = `bas_` + 64 lowercase hex with a 12-char
display piece, client ID = `BAS` + 29 lowercase hex (32 chars), client
secret = 64 lowercase hex with an 8-char + `...` display piece, channel ID =
`CH` + 16 lowercase hex — and whenever the source fails each generator
returns an error with empty outputs, never a partial secret. -/
theorem generator_formats :
    (∀ f : Nat → Nat,
       (GenerateAPIKey (some f)).2.2 = none ∧
       (GenerateAPIKey (some f)).1.data.length = 68 ∧
       (GenerateAPIKey (some f)).1.data.take 4 = "bas_".data ∧
       (∀ c ∈ (GenerateAPIKey (some f)).1.data.drop 4, isLowerHex c = true) ∧
       (GenerateAPIKey (some f)).2.1.data = (GenerateAPIKey (some f)).1.data.take 12) ∧
    (∀ f g : Nat → Nat,
       (GenerateClientCredentials (some f) (some g)).2.2.2 = none ∧
       (GenerateClientCredentials (some f) (some g)).1.data.length = 32 ∧
       (GenerateClientCredentials (some f) (some g)).1.data.take 3 = "BAS".data ∧
       (∀ c ∈ (GenerateClientCredentials (some f) (some g)).1.data.drop 3,
          isLowerHex c = true) ∧
       (GenerateClientCredentials (some f) (some g)).2.1.data.length = 64 ∧
       (∀ c ∈ (GenerateClientCredentials (some f) (some g)).2.1.data,
          isLowerHex c = true) ∧
       (GenerateClientCredentials (some f) (some g)).2.2.1.data =
         (GenerateClientCredentials (some f) (some g)).2.1.data.take 8 ++ "...".data) ∧
    (∀ f : Nat → Nat,
       (GenerateChannelID (some f)).2 = none ∧
       (GenerateChannelID (some f)).1.data.length = 18 ∧
       (GenerateChannelID (some f)).1.data.take 2 = "CH".data ∧
       (∀ c ∈ (GenerateChannelID (some f)).1.data.drop 2, isLowerHex c = true)) ∧
    GenerateAPIKey none = ("", "", some "entropy source failure") ∧
    (∀ f : Nat → Nat, GenerateClientCredentials (some f) none =
       ("", "", "", some "entropy source failure")) ∧
    (∀ g : Nat → Nat, GenerateClientCredentials none (some g) =
       ("", "", "", some "entropy source failure")) ∧
    GenerateClientCredentials none none = ("", "", "", some "entropy source failure") ∧
    GenerateChannelID none = ("", some "entropy source failure") := by
  refine ⟨?_, ?_, ?_, rfl, fun f => rfl, fun g => rfl, rfl, rfl⟩
  · intro f
    have hbytes : ((List.range 32).map fun i => f i % 256).length = 32 := by simp
    have hdata : (GenerateAPIKey (some f)).1.data =
        "bas_".data ++ hexEncode ((List.range 32).map fun i => f i % 256) := rfl
    refine ⟨rfl, ?_, ?_, ?_, rfl⟩
    · rw [hdata, List.length_append, hexEncode_length, hbytes]
      rfl
    · rfl
    · intro c hc
      have hdrop : (GenerateAPIKey (some f)).1.data.drop 4 =
          hexEncode ((List.range 32).map fun i => f i % 256) := rfl
      rw [hdrop] at hc
      exact hexEncode_lowerHex _ c hc
  · intro f g
    have hidlen : (hexEncode ((List.range 16).map fun i => f i % 256)).length = 32 := by
      rw [hexEncode_length]
      simp
    have hseclen : (hexEncode ((List.range 32).map fun i => g i % 256)).length = 64 := by
      rw [hexEncode_length]
      simp
    refine ⟨rfl, ?_, rfl, ?_, ?_, ?_, rfl⟩
    · have hdata : (GenerateClientCredentials (some f) (some g)).1.data =
          "BAS".data ++ (hexEncode ((List.range 16).map fun i => f i % 256)).take 29 := rfl
      rw [hdata, List.length_append, List.length_take, hidlen]
      rfl
    · intro c hc
      have hdrop : (GenerateClientCredentials (some f) (some g)).1.data.drop 3 =
          (hexEncode ((List.range 16).map fun i => f i % 256)).take 29 := rfl
      rw [hdrop] at hc
      exact hexEncode_lowerHex _ c (List.take_subset _ _ hc)
    · exact hseclen
    · intro c hc
      exact hexEncode_lowerHex _ c hc
  · intro f
    have hlen : (hexEncode ((List.range 8).map fun i => f i % 256)).length = 16 := by
      rw [hexEncode_length]
      simp
    refine ⟨rfl, ?_, rfl, ?_⟩
    · have hdata : (GenerateChannelID (some f)).1.data =
          "CH".data ++ hexEncode ((List.range 8).map fun i => f i % 256) := rfl
      rw [hdata, List.length_append, hlen]
      rfl
    · intro c hc
      have hdrop : (GenerateChannelID (some f)).1.data.drop 2 =
          hexEncode ((List.range 8).map fun i => f i % 256) := rfl
      rw [hdrop] at hc
      exact hexEncode_lowerHex _ c hc

/-- C7 at a concrete byte stream: generation succeeds and a character drawn
from the hex body is a lowercase hex digit. -/
theorem generator_formats_witness :
    (GenerateAPIKey (some fun i => i)).2.2 = none ∧ isLowerHex '0' = true := by
  have h := generator_formats
  exact ⟨(h.1 (fun i => i)).1, (h.1 (fun i => i)).2.2.2.1 '0' (by decide)⟩

/-- C6: `ValidatePublicKey` accepts the empty string with no fingerprint and
no error; rejects undecodable input and wrong block types with the
invalid-format errors; rejects blocks parsing under neither PKIX nor PKCS#1
with the invalid-key error; and on success returns the lowercase-hex SHA-256
of the block's DER bytes — 64 lowercase hex characters (and, the function
being pure, identical on identical input). -/
theorem validatePublicKey_contract (env : X509Env)
    (hsha : ∀ bs, (env.sha256 bs).length = 32) :
    ValidatePublicKey env "" = ("", none) ∧
    (∀ s, s ≠ "" → env.pemDecode s = none →
       ValidatePublicKey env s =
         ("", some "invalid PEM format: no valid PEM block found")) ∧
    (∀ s block, s ≠ "" → env.pemDecode s = some block →
       block.type ≠ "PUBLIC KEY" → block.type ≠ "RSA PUBLIC KEY" →
       ValidatePublicKey env s =
         ("", some "invalid PEM format: expected PUBLIC KEY or RSA PUBLIC KEY")) ∧
    (∀ s block, s ≠ "" → env.pemDecode s = some block →
       (block.type = "PUBLIC KEY" ∨ block.type = "RSA PUBLIC KEY") →
       env.parsePKIXOk block.bytes = false → env.parsePKCS1Ok block.bytes = false →
       ValidatePublicKey env s = ("", some "invalid public key: unable to parse")) ∧
    (∀ s block, s ≠ "" → env.pemDecode s = some block →
       (block.type = "PUBLIC KEY" ∨ block.type = "RSA PUBLIC KEY") →
       (env.parsePKIXOk block.bytes = true ∨ env.parsePKCS1Ok block.bytes = true) →
       (ValidatePublicKey env s).2 = none ∧
       (ValidatePublicKey env s).1.data = hexEncode (env.sha256 block.bytes) ∧
       (ValidatePublicKey env s).1.data.length = 64 ∧
       (∀ c ∈ (ValidatePublicKey env s).1.data, isLowerHex c = true)) := by
  have step : ∀ s block, s ≠ "" → env.pemDecode s = some block →
      ValidatePublicKey env s =
        if block.type ≠ "PUBLIC KEY" ∧ block.type ≠ "RSA PUBLIC KEY" then
          ("", some "invalid PEM format: expected PUBLIC KEY or RSA PUBLIC KEY")
        else if ¬ env.parsePKIXOk block.bytes ∧ ¬ env.parsePKCS1Ok block.bytes then
          ("", some "invalid public key: unable to parse")
        else (⟨hexEncode (env.sha256 block.bytes)⟩, none) := by
    intro s block hs hdec
    unfold ValidatePublicKey
    rw [if_neg hs, hdec]
  refine ⟨rfl, ?_, ?_, ?_, ?_⟩
  · intro s hs hdec
    unfold ValidatePublicKey
    rw [if_neg hs, hdec]
  · intro s block hs hdec ht1 ht2
    rw [step s block hs hdec, if_pos (And.intro ht1 ht2)]
  · intro s block hs hdec htype hx1 hx2
    rw [step s block hs hdec,
      if_neg (fun hcontra => htype.elim hcontra.1 hcontra.2),
      if_pos ⟨by simp [hx1], by simp [hx2]⟩]
  · intro s block hs hdec htype hparse
    have hred : ValidatePublicKey env s =
        (⟨hexEncode (env.sha256 block.bytes)⟩, none) := by
      rw [step s block hs hdec,
        if_neg (fun hcontra => htype.elim hcontra.1 hcontra.2),
        if_neg (fun hcontra => hparse.elim
          (fun h1 => hcontra.1 h1) (fun h2 => hcontra.2 h2))]
    rw [hred]
    refine ⟨rfl, rfl, ?_, ?_⟩
    · show (hexEncode (env.sha256 block.bytes)).length = 64
      rw [hexEncode_length, hsha]
    · intro c hc
      exact hexEncode_lowerHex _ c hc

/-- C6 at the demonstration environment: empty input, wrong block type, and
a successful fingerprint. -/
theorem validatePublicKey_contract_witness :
    ValidatePublicKey demoPemEnv "" = ("", none) ∧
    ValidatePublicKey demoPemEnv "CERTPEM" =
      ("", some "invalid PEM format: expected PUBLIC KEY or RSA PUBLIC KEY") ∧
    (ValidatePublicKey demoPemEnv "PUBKEYPEM").2 = none ∧
    (ValidatePublicKey demoPemEnv "PUBKEYPEM").1.data.length = 64 := by
  have h := validatePublicKey_contract demoPemEnv
    (fun bs => by simp [demoPemEnv])
  refine ⟨h.1, ?_, ?_, ?_⟩
  · exact h.2.2.1 "CERTPEM" ⟨"CERTIFICATE", [4]⟩ (by decide) (by decide)
      (by decide) (by decide)
  · exact (h.2.2.2.2 "PUBKEYPEM" ⟨"PUBLIC KEY", [1, 2, 3]⟩ (by decide) (by decide)
      (Or.inl rfl) (Or.inl (by decide))).1
  · exact (h.2.2.2.2 "PUBKEYPEM" ⟨"PUBLIC KEY", [1, 2, 3]⟩ (by decide) (by decide)
      (Or.inl rfl) (Or.inl (by decide))).2.2.1

/-- C8: soft delete of a partner credential and revocation of an API key
keep the stored row (same table length, the row still present with its
client ID, only flagged); the row disappears from the owner's active
listing, stops counting toward the quota, and a creation that was blocked at
the ceiling then succeeds. -/
theorem softDelete_revoke_preserve (db : CredDB) (kdb : KeyDB)
    (id uid keyID uid2 : String) (now : Int)
    (cred : PartnerCredential) (key : APIKey) (env : X509Env)
    (hfind : findByIDAndUserID db id uid = some cred)
    (hactive : cred.isActive = true)
    (hnd : db.Nodup)
    (hkey : ∀ c ∈ db, c.id = cred.id → c = cred)
    (hcount : countByUserID db uid = 5)
    (hkfind : apiFindByID kdb keyID = some key)
    (hkuid : key.userID = uid2)
    (hkactive : key.isActive = true)
    (hknd : kdb.Nodup)
    (hkkey : ∀ k ∈ kdb, k.id = key.id → k = key)
    (hkcount : apiCountByUserID kdb uid2 = 10) :
    DeleteCredential db id uid now = (deleteStore db id uid now, Except.ok ()) ∧
    (deleteStore db id uid now).length = db.length ∧
    { cred with deletedAt := some now } ∈ deleteStore db id uid now ∧
    (∀ c ∈ findByUserID (deleteStore db id uid now) uid, c.id ≠ cred.id) ∧
    countByUserID (deleteStore db id uid now) uid = 4 ∧
    (∀ (f g h : Nat → Nat) (fp : String) (input : CreateCredentialInput)
       (newID : String),
       ValidatePublicKey env input.publicKey = (fp, none) →
       ∃ c r, CreateCredential (deleteStore db id uid now) uid input
           (some f) (some g) (some h) env newID now =
         (deleteStore db id uid now ++ [c], Except.ok r) ∧ c.isActive = true) ∧
    RevokeKey kdb keyID uid2 now = (revokeStore kdb keyID uid2 now, Except.ok ()) ∧
    (revokeStore kdb keyID uid2 now).length = kdb.length ∧
    { key with isActive := false, updatedAt := now } ∈ revokeStore kdb keyID uid2 now ∧
    (∀ k ∈ apiFindByUserID (revokeStore kdb keyID uid2 now) uid2, k.id ≠ key.id) ∧
    apiCountByUserID (revokeStore kdb keyID uid2 now) uid2 = 9 ∧
    (∀ (f : Nat → Nat) (hsh : String) (input : CreateKeyInput) (newID : String),
       ∃ k r, CreateKey (revokeStore kdb keyID uid2 now) uid2 input
           (some f) (fun _ => some hsh) newID now =
         (revokeStore kdb keyID uid2 now ++ [k], Except.ok r) ∧
         k.isActive = true) := by
  -- credential-side bookkeeping
  have hfind' : db.find? (fun c => c.live && c.id == id && c.userID == uid) =
      some cred := hfind
  have hmem : cred ∈ db := List.mem_of_find?_eq_some hfind'
  have hp := List.find?_some hfind'
  rw [Bool.and_eq_true, Bool.and_eq_true] at hp
  obtain ⟨⟨hlive, hidb⟩, huidb⟩ := hp
  rw [beq_iff_eq] at hidb huidb
  have hupdDel : ∀ b ∈ db, (b.live && b.id == id && b.userID == uid) = true →
      b = cred := by
    intro b hb h
    rw [Bool.and_eq_true, Bool.and_eq_true, beq_iff_eq, beq_iff_eq] at h
    exact hkey b hb (by rw [h.1.2, hidb])
  have hupdaDel : (cred.live && cred.id == id && cred.userID == uid) = true := by
    rw [Bool.and_eq_true, Bool.and_eq_true, beq_iff_eq, beq_iff_eq]
    exact ⟨⟨hlive, hidb⟩, huidb⟩
  have hqcred : (cred.live && cred.userID == uid && cred.isActive) = true := by
    rw [Bool.and_eq_true, Bool.and_eq_true, beq_iff_eq]
    exact ⟨⟨hlive, huidb⟩, hactive⟩
  have hcount4 : countByUserID (deleteStore db id uid now) uid = 4 := by
    unfold countByUserID deleteStore
    rw [← List.countP_eq_length_filter]
    rw [countP_map_flip db _ _ (fun c => { c with deletedAt := some now }) cred
      hnd hmem hupdDel hupdaDel hqcred (by simp [PartnerCredential.live])]
    rw [List.countP_eq_length_filter]
    have h5 : countByUserID db uid = 5 := hcount
    unfold countByUserID at h5
    rw [h5]
  -- key-side bookkeeping
  have hkfind' : kdb.find? (fun k => k.live && k.id == keyID) = some key := hkfind
  have hkmem : key ∈ kdb := List.mem_of_find?_eq_some hkfind'
  have hkp := List.find?_some hkfind'
  rw [Bool.and_eq_true] at hkp
  obtain ⟨hklive, hkid⟩ := hkp
  rw [beq_iff_eq] at hkid
  have hupdRev : ∀ b ∈ kdb, (b.live && b.id == keyID && b.userID == uid2) = true →
      b = key := by
    intro b hb h
    rw [Bool.and_eq_true, Bool.and_eq_true, beq_iff_eq, beq_iff_eq] at h
    exact hkkey b hb (by rw [h.1.2, hkid])
  have hupdaRev : (key.live && key.id == keyID && key.userID == uid2) = true := by
    rw [Bool.and_eq_true, Bool.and_eq_true, beq_iff_eq, beq_iff_eq]
    exact ⟨⟨hklive, hkid⟩, hkuid⟩
  have hqkey : (key.live && key.userID == uid2 && key.isActive) = true := by
    rw [Bool.and_eq_true, Bool.and_eq_true, beq_iff_eq]
    exact ⟨⟨hklive, hkuid⟩, hkactive⟩
  have hcount9 : apiCountByUserID (revokeStore kdb keyID uid2 now) uid2 = 9 := by
    unfold apiCountByUserID revokeStore
    rw [← List.countP_eq_length_filter]
    rw [countP_map_flip kdb _ _
      (fun k => { k with isActive := false, updatedAt := now }) key
      hknd hkmem hupdRev hupdaRev hqkey (by simp)]
    rw [List.countP_eq_length_filter]
    have h10 : apiCountByUserID kdb uid2 = 10 := hkcount
    unfold apiCountByUserID at h10
    rw [h10]
  refine ⟨?_, ?_, ?_, ?_, hcount4, ?_, ?_, ?_, ?_, ?_, hcount9, ?_⟩
  · unfold DeleteCredential
    rw [hfind]
  · unfold deleteStore
    rw [List.length_map]
  · unfold deleteStore
    have hx := List.mem_map_of_mem
      (fun c => if c.live && c.id == id && c.userID == uid then
        { c with deletedAt := some now } else c) hmem
    simpa [hupdaDel] using hx
  · intro c hc hcid
    unfold findByUserID deleteStore at hc
    rw [List.mem_filter] at hc
    obtain ⟨hcm, hcp⟩ := hc
    rw [List.mem_map] at hcm
    obtain ⟨b, hb, hfb⟩ := hcm
    by_cases hub : (b.live && b.id == id && b.userID == uid) = true
    · rw [if_pos hub] at hfb
      rw [← hfb] at hcp
      simp [PartnerCredential.live] at hcp
    · rw [if_neg hub] at hfb
      subst hfb
      have hbc : b = cred := hkey b hb hcid
      exact hub (hbc.symm ▸ hupdaDel)
  · intro f g h fp input newID hv
    exact createCredential_ok _ uid input f g h env newID now fp
      (by rw [hcount4]; omega) hv
  · unfold RevokeKey
    rw [hkfind]
    show (if key.userID ≠ uid2 then (kdb, Except.error SvcErr.keyNotFound)
      else (revokeStore kdb keyID uid2 now, Except.ok ())) = _
    rw [if_neg (fun hcc => hcc hkuid)]
  · unfold revokeStore
    rw [List.length_map]
  · unfold revokeStore
    have hx := List.mem_map_of_mem
      (fun k => if k.live && k.id == keyID && k.userID == uid2 then
        { k with isActive := false, updatedAt := now } else k) hkmem
    simpa [hupdaRev] using hx
  · intro k hk hkidq
    unfold apiFindByUserID revokeStore at hk
    rw [List.mem_filter] at hk
    obtain ⟨hcm, hcp⟩ := hk
    rw [List.mem_map] at hcm
    obtain ⟨b, hb, hfb⟩ := hcm
    by_cases hub : (b.live && b.id == keyID && b.userID == uid2) = true
    · rw [if_pos hub] at hfb
      rw [← hfb] at hcp
      simp at hcp
    · rw [if_neg hub] at hfb
      subst hfb
      have hbc : b = key := hkkey b hb hkidq
      exact hub (hbc.symm ▸ hupdaRev)
  · intro f hsh input newID
    refine ⟨newAPIKey uid2 input f hsh newID now,
      ⟨(newAPIKey uid2 input f hsh newID now).toResponse, (GenerateAPIKey (some f)).1⟩,
      createKey_ok _ uid2 input f hsh newID now (by rw [hcount9]; omega), rfl⟩

/-- C8 at the concrete fixtures: delete/revoke succeed, counts drop below
the ceilings, and the previously blocked creations go through. -/
theorem softDelete_revoke_preserve_witness :
    DeleteCredential fiveCreds "c0" demoUUID 7 =
      (deleteStore fiveCreds "c0" demoUUID 7, Except.ok ()) ∧
    countByUserID (deleteStore fiveCreds "c0" demoUUID 7) demoUUID = 4 ∧
    (∃ c r, CreateCredential (deleteStore fiveCreds "c0" demoUUID 7) demoUUID
        ⟨"Acme", "", "", [], ""⟩ (some fun i => i) (some fun i => i)
        (some fun i => i) badPemEnv "nid" 7 =
      (deleteStore fiveCreds "c0" demoUUID 7 ++ [c], Except.ok r) ∧
      c.isActive = true) ∧
    RevokeKey tenKeys "k0" demoUUID 7 =
      (revokeStore tenKeys "k0" demoUUID 7, Except.ok ()) ∧
    apiCountByUserID (revokeStore tenKeys "k0" demoUUID 7) demoUUID = 9 ∧
    (∃ k r, CreateKey (revokeStore tenKeys "k0" demoUUID 7) demoUUID
        ⟨"n", "sandbox"⟩ (some fun i => i) (fun _ => some "h") "nid" 7 =
      (revokeStore tenKeys "k0" demoUUID 7 ++ [k], Except.ok r) ∧
      k.isActive = true) := by
  have h := softDelete_revoke_preserve fiveCreds tenKeys "c0" demoUUID "k0"
    demoUUID 7 (mkCred "c0" "BAS0") (mkKey "k0") badPemEnv
    (by decide) (by decide) (by decide) (by decide) (by decide)
    (by decide) (by decide) (by decide) (by decide) (by decide) (by decide)
  exact ⟨h.1, h.2.2.2.2.1,
    h.2.2.2.2.2.1 (fun i => i) (fun i => i) (fun i => i) ""
      ⟨"Acme", "", "", [], ""⟩ "nid" (by decide),
    h.2.2.2.2.2.2.1, h.2.2.2.2.2.2.2.2.2.2.1,
    h.2.2.2.2.2.2.2.2.2.2.2 (fun i => i) "h" ⟨"n", "sandbox"⟩ "nid"⟩

/-- Every error `JWTAuth`'s token check produces is a 401 with the
`Unauthorized` error class. -/
theorem jwtAuthCheckToken_unauthorized (secret : String) (now : Int) (t : Token)
    (e : ErrResp) (he : jwtAuthCheckToken secret now t = Except.error e) :
    e.status = 401 ∧ e.error = "Unauthorized" := by
  unfold jwtAuthCheckToken at he
  split at he
  · injection he with h
    subst h
    exact ⟨rfl, rfl⟩
  · split at he
    · split at he
      · injection he with h
        subst h
        exact ⟨rfl, rfl⟩
      · split at he
        · exact absurd he (by simp)
        · injection he with h
          subst h
          exact ⟨rfl, rfl⟩
    · injection he with h
      subst h
      exact ⟨rfl, rfl⟩

/-- C9: the bearer middleware resolves a principal only from a header that
splits into exactly two space-separated parts with a case-insensitive
`bearer` scheme, a decodable token passing HMAC signature/expiry
verification with type claim `access` and a subject that parses as a UUID;
every failure — missing header, bad shape or scheme, failed verification,
wrong type, bad subject — is externally the same 401 `Unauthorized` outcome,
while the internal diagnostic messages are pairwise distinct. -/
theorem jwtAuth_gateway (secret : String) (now : Int) (authHeader : String)
    (decode : String → Option Token) :
    (∀ e, JWTAuth secret now authHeader decode = Except.error e →
       e.status = 401 ∧ e.error = "Unauthorized") ∧
    (∀ ctx, JWTAuth secret now authHeader decode = Except.ok ctx →
       ∃ p0 p1 t cs, stringsSplit authHeader = [p0, p1] ∧
         toLowerStr p0 = "bearer" ∧ decode p1 = some t ∧
         libParse true secret now t = Except.ok cs ∧
         getStrClaim cs "type" = some "access" ∧
         getStrClaim cs "sub" = some ctx.userID ∧
         isUUID ctx.userID = true) ∧
    (authHeader = "" → JWTAuth secret now authHeader decode =
       Except.error ⟨401, "Unauthorized", "Missing authorization header"⟩) ∧
    (∀ p0 p1, authHeader ≠ "" → stringsSplit authHeader = [p0, p1] →
       toLowerStr p0 ≠ "bearer" →
       JWTAuth secret now authHeader decode =
         Except.error ⟨401, "Unauthorized", "Invalid authorization header format"⟩) ∧
    (authHeader ≠ "" → (stringsSplit authHeader).length ≠ 2 →
       JWTAuth secret now authHeader decode =
         Except.error ⟨401, "Unauthorized", "Invalid authorization header format"⟩) ∧
    List.Pairwise (fun a b => a ≠ b)
      ["Missing authorization header", "Invalid authorization header format",
       "Invalid or expired token", "Invalid token type",
       "Invalid user ID in token", "Invalid user ID format"] := by
  refine ⟨?_, ?_, ?_, ?_, ?_, by decide⟩
  · intro e he
    unfold JWTAuth at he
    by_cases h0 : authHeader = ""
    · rw [if_pos h0] at he
      injection he with h
      subst h
      exact ⟨rfl, rfl⟩
    · rw [if_neg h0] at he
      split at he
      · split at he
        · injection he with h
          subst h
          exact ⟨rfl, rfl⟩
        · split at he
          · injection he with h
            subst h
            exact ⟨rfl, rfl⟩
          · exact jwtAuthCheckToken_unauthorized secret now _ e he
      · injection he with h
        subst h
        exact ⟨rfl, rfl⟩
  · intro ctx hok
    unfold JWTAuth at hok
    by_cases h0 : authHeader = ""
    · rw [if_pos h0] at hok
      exact absurd hok (by simp)
    · rw [if_neg h0] at hok
      split at hok
      · rename_i p0 p1 heq
        split at hok
        · exact absurd hok (by simp)
        · rename_i hbear
          split at hok
          · exact absurd hok (by simp)
          · rename_i t hdec
            unfold jwtAuthCheckToken at hok
            split at hok
            · exact absurd hok (by simp)
            · rename_i cs hparse
              split at hok
              · rename_i htype
                split at hok
                · exact absurd hok (by simp)
                · rename_i uidStr hsub
                  split at hok
                  · rename_i huuid
                    injection hok with hh
                    subst hh
                    exact ⟨p0, p1, t, cs, heq, not_not.mp hbear, hdec,
                      hparse, htype, hsub, huuid⟩
                  · exact absurd hok (by simp)
              · exact absurd hok (by simp)
      · exact absurd hok (by simp)
  · intro h0
    unfold JWTAuth
    rw [if_pos h0]
  · intro p0 p1 h0 hsp hbear
    unfold JWTAuth
    rw [if_neg h0, hsp]
    show (if toLowerStr p0 ≠ "bearer" then
        Except.error ⟨401, "Unauthorized", "Invalid authorization header format"⟩
      else
        match decode p1 with
        | none => Except.error ⟨401, "Unauthorized", "Invalid or expired token"⟩
        | some t => jwtAuthCheckToken secret now t) =
      Except.error ⟨401, "Unauthorized", "Invalid authorization header format"⟩
    rw [if_pos hbear]
  · intro h0 hlen
    unfold JWTAuth
    rw [if_neg h0]
    rcases hs : stringsSplit authHeader with _ | ⟨a, _ | ⟨b, _ | ⟨c, rest⟩⟩⟩
    · rfl
    · rfl
    · exact absurd (by rw [hs]; rfl : (stringsSplit authHeader).length = 2) hlen
    · rfl

/-- C9 at concrete headers: a missing header and a wrong scheme word. -/
theorem jwtAuth_gateway_witness :
    JWTAuth "k" 0 "" (fun _ => none) =
      Except.error ⟨401, "Unauthorized", "Missing authorization header"⟩ ∧
    JWTAuth "k" 0 "Token abc" (fun _ => none) =
      Except.error ⟨401, "Unauthorized", "Invalid authorization header format"⟩ := by
  have h := jwtAuth_gateway "k" 0 "" (fun _ => none)
  have h2 := jwtAuth_gateway "k" 0 "Token abc" (fun _ => none)
  exact ⟨h.2.2.1 rfl,
    h2.2.2.2.1 "Token" "abc" (by decide) (by decide) (by decide)⟩

end BAS
